import Mathlib

/-!
Shallow embedding of the marathon bot's progress state machine
(src/bot/db.py, src/bot/handlers.py, src/bot/scheduler.py).

Time is modelled as `Nat` microseconds (`dt.datetime` with minute flooring
and the one-microsecond epsilon used by `close_run_now`).  The SQLAlchemy
tables become lists of records inside a `Db` value; a query `ORDER BY k
DESC LIMIT 1` becomes picking the maximum of the filtered list under the
same key.  Per-user `Progress` rows are threaded explicitly through the
handler functions, and the transport (`bot.send_message`) becomes a
boolean oracle: `true` means the send succeeded, `false` means it raised.
-/

namespace Marafursov

/-- Microseconds, the finest granularity the code uses
(`close_run_now` subtracts one microsecond). -/
abbrev Time := Nat

/-- One minute in microseconds. -/
def usPerMin : Nat := 60000000

/-- Models `dt.timedelta(minutes=m)`. -/
def minutes (m : Nat) : Time := m * usPerMin

/-- Models `_floor_to_minute` (scheduler.py:28, handlers.py:66):
`t.replace(second=0, microsecond=0)`. -/
def floor_to_minute (t : Time) : Time := t / usPerMin * usPerMin

/-- A row of the `posts` table (db.py:35).  Content fields other than the
title are opaque payload and omitted; `position` is the 1-based day. -/
structure Post where
  id : Nat
  position : Nat
  title : String
deriving DecidableEq

/-- A row of the `progress` table (db.py:54). -/
structure Progress where
  user_id : Nat
  next_position : Nat
  next_send_at : Time
  pending_post_id : Option Nat
  active_post_id : Option Nat
  active_started_at : Option Time
  active_until : Option Time
  summary_prompt_sent : Bool
deriving DecidableEq

/-- A row of the `task_runs` table (db.py:93). -/
structure TaskRun where
  id : Nat
  user_id : Nat
  post_id : Nat
  started_at : Time
  until_ : Time
deriving DecidableEq

/-- A row of the `responses` table (db.py:81). -/
structure Response where
  id : Nat
  run_id : Nat
  user_id : Nat
  post_id : Nat
  seq : Nat
  text : String
deriving DecidableEq

/-- The `app_settings` row (db.py:109). -/
structure AppSettings where
  response_window_minutes : Nat
  send_interval_minutes : Nat
deriving DecidableEq

/-- The database state the engine touches, plus the id counters the ORM
would assign to freshly inserted rows. -/
structure Db where
  posts : List Post
  runs : List TaskRun
  responses : List Response
  next_run_id : Nat
  next_response_id : Nat
  app : AppSettings
deriving DecidableEq

/-- Models `count_posts` (db.py:330). -/
def count_posts (db : Db) : Nat := db.posts.length

/-- Models `get_post_by_position` (db.py:345). -/
def get_post_by_position (db : Db) (position : Nat) : Option Post :=
  db.posts.find? (fun p => p.position == position)

/-- Models `get_post` (db.py:349). -/
def get_post (db : Db) (post_id : Nat) : Option Post :=
  db.posts.find? (fun p => p.id == post_id)

/-- The row `ORDER BY started_at DESC, id DESC LIMIT 1` keeps between two
candidates: the larger under the (started_at, id) lexicographic key. -/
def laterByStarted (a b : TaskRun) : TaskRun :=
  if a.started_at < b.started_at ∨ (a.started_at = b.started_at ∧ a.id < b.id) then b else a

/-- The row `ORDER BY until DESC, id DESC LIMIT 1` keeps between two
candidates: the larger under the (until, id) lexicographic key. -/
def laterByUntil (a b : TaskRun) : TaskRun :=
  if a.until_ < b.until_ ∨ (a.until_ = b.until_ ∧ a.id < b.id) then b else a

/-- First row of a query ordered by `started_at DESC, id DESC`. -/
def latestByStarted : List TaskRun → Option TaskRun
  | [] => none
  | r :: rs =>
    match latestByStarted rs with
    | none => some r
    | some m => some (laterByStarted r m)

/-- First row of a query ordered by `until DESC, id DESC`. -/
def latestByUntil : List TaskRun → Option TaskRun
  | [] => none
  | r :: rs =>
    match latestByUntil rs with
    | none => some r
    | some m => some (laterByUntil r m)

/-- Models `get_latest_open_run` (db.py:443): latest run of the user whose
window is still open (`until >= now`). -/
def get_latest_open_run (db : Db) (user_id : Nat) (now : Time) : Option TaskRun :=
  latestByStarted (db.runs.filter fun r =>
    r.user_id == user_id && decide (now ≤ r.until_))

/-- Models `get_latest_open_run_for_post` (db.py:451). -/
def get_latest_open_run_for_post (db : Db) (user_id post_id : Nat) (now : Time) :
    Option TaskRun :=
  latestByStarted (db.runs.filter fun r =>
    r.user_id == user_id && r.post_id == post_id && decide (now ≤ r.until_))

/-- The `last_run` query of the tick (scheduler.py:125-129): latest run of
the user for the given post ordered by `until DESC, id DESC`, with no
openness filter. -/
def get_last_run_for_post (db : Db) (user_id post_id : Nat) : Option TaskRun :=
  latestByUntil (db.runs.filter fun r =>
    r.user_id == user_id && r.post_id == post_id)

/-- Models `create_task_run` (db.py:436). -/
def create_task_run (db : Db) (user_id post_id : Nat) (started_at until_ : Time) :
    Db × TaskRun :=
  let run : TaskRun := ⟨db.next_run_id, user_id, post_id, started_at, until_⟩
  ({ db with runs := db.runs ++ [run], next_run_id := db.next_run_id + 1 }, run)

/-- Maximum `seq` among the run's responses, 0 when there are none
(the `select(func.max(Response.seq)) ... or 0` of db.py:460). -/
def max_seq_for_run (db : Db) (run_id : Nat) : Nat :=
  (db.responses.filter fun r => r.run_id == run_id).foldl (fun a r => max a r.seq) 0

/-- Models `add_response` (db.py:459): appends a response with
`seq = max(seq in run) + 1`. -/
def add_response (db : Db) (run_id user_id post_id : Nat) (text : String) :
    Db × Response :=
  let seq := max_seq_for_run db run_id + 1
  let resp : Response := ⟨db.next_response_id, run_id, user_id, post_id, seq, text⟩
  ({ db with responses := db.responses ++ [resp],
             next_response_id := db.next_response_id + 1 }, resp)

/-- Models `count_responses_for_run` (db.py:467). -/
def count_responses_for_run (db : Db) (run_id : Nat) : Nat :=
  (db.responses.filter fun r => r.run_id == run_id).length

/-- Models `close_run_now` (db.py:471): sets the run's `until` to
`now - 1 microsecond` so all subsequent `now` comparisons see it closed. -/
def close_run_now (db : Db) (run_id : Nat) (now : Time) : Db :=
  { db with runs := db.runs.map fun r =>
      if r.id == run_id then { r with until_ := now - 1 } else r }

/-- Models `set_response_window_minutes` (db.py:224), with its clamping
to the range 1 .. 7*24*60. -/
def set_response_window_minutes (db : Db) (m : Nat) : Db :=
  let m := if m < 1 then 1 else if 60 * 24 * 7 < m then 60 * 24 * 7 else m
  { db with app := { db.app with response_window_minutes := m } }

/-! ## Handlers (src/bot/handlers.py) -/

/-- Outcome of the start-button callback. -/
inductive StartStatus where
  | notFound
  | opened
deriving DecidableEq

/-- Models `start_task_callback` (handlers.py:436-497), the OpenTask
operation: look up the post; reuse the `until` of an already-open run for
this (user, post) pair, otherwise create a new run with
`until = now + response_window_minutes`; clear `pending_post_id` only when
it equals the opened post; set the active fields. -/
def start_task_callback (db : Db) (prog : Progress) (post_id : Nat) (now : Time) :
    Db × Progress × StartStatus :=
  match get_post db post_id with
  | none => (db, prog, .notFound)
  | some post =>
    let existing_open := get_latest_open_run_for_post db prog.user_id post.id now
    let result :=
      match existing_open with
      | some r => (db, r.until_)
      | none =>
        let u := now + minutes db.app.response_window_minutes
        ((create_task_run db prog.user_id post.id now u).1, u)
    let db1 := result.1
    let u := result.2
    let prog1 := { prog with
      pending_post_id :=
        if prog.pending_post_id == some post.id then none else prog.pending_post_id,
      active_post_id := some post.id,
      active_started_at := some now,
      active_until := some u }
    (db1, prog1, .opened)

/-- Outcome of recording a free-text answer. -/
inductive RecordStatus where
  | noRun
  | limitReached
  | postMissing
  | recorded (remaining : Nat)
  | recordedClosed (remaining : Nat)
deriving DecidableEq

/-- Models `capture_user_answer` (handlers.py:500-582).  `replyPos` is the
day number parsed from a reply-to message ("День X"), `none` for a plain
message.  Routing: an open run for the replied-to post first, else the
latest open run; then the response-limit logic of handlers.py:537-572. -/
def capture_user_answer (db : Db) (prog : Progress) (replyPos : Option Nat)
    (text : String) (now : Time) (max_responses_per_task : Nat) :
    Db × Progress × RecordStatus :=
  let viaReply :=
    match replyPos with
    | some pos =>
      match get_post_by_position db pos with
      | some post => get_latest_open_run_for_post db prog.user_id post.id now
      | none => none
    | none => none
  let target_run :=
    match viaReply with
    | some r => some r
    | none => get_latest_open_run db prog.user_id now
  match target_run with
  | none => (db, prog, .noRun)
  | some run =>
    let current_cnt := count_responses_for_run db run.id
    if max_responses_per_task ≤ current_cnt then
      (close_run_now db run.id now, prog, .limitReached)
    else
      match get_post db run.post_id with
      | none => (db, prog, .postMissing)
      | some post =>
        let db1 := (add_response db run.id prog.user_id post.id text).1
        let remaining := max_responses_per_task - (current_cnt + 1)
        if max_responses_per_task ≤ current_cnt + 1 then
          let db2 := close_run_now db1 run.id now
          let prog1 := { prog with
            active_post_id := none,
            active_started_at := none,
            active_until := none,
            pending_post_id := none,
            next_send_at :=
              floor_to_minute now + minutes db.app.send_interval_minutes }
          (db2, prog1, .recordedClosed remaining)
        else
          (db1, prog, .recorded remaining)

/-- Outcome of `_send_due_task_now`, mirroring its status strings. -/
inductive SendNowStatus where
  | notOnboarded
  | alreadyPending
  | alreadyActive
  | tooEarly
  | done
  | missingPost
  | sent
  | sendFailed
deriving DecidableEq

/-- Models `_send_due_task_now` (handlers.py:166-216), the on-demand push
used after onboarding.  `sendOk` is the transport: `false` means
`send_message` raised, aborting before any state mutation.  Note the
source advances `pending_post_id` and `next_position` on success but does
not touch `next_send_at` (handlers.py:210-213). -/
def send_due_task_now (db : Db) (prog : Progress) (onboarded : Bool)
    (sendOk : Bool) (now : Time) : Progress × SendNowStatus :=
  let now_min := floor_to_minute now
  if onboarded = false then (prog, .notOnboarded) else
  let prog :=
    if prog.next_position = 1 ∧ now_min < prog.next_send_at then
      { prog with next_send_at := now_min }
    else prog
  match prog.pending_post_id with
  | some _ => (prog, .alreadyPending)
  | none =>
  match prog.active_post_id with
  | some _ => (prog, .alreadyActive)
  | none =>
  if now_min < prog.next_send_at then (prog, .tooEarly)
  else if count_posts db < prog.next_position then (prog, .done)
  else
    match get_post_by_position db prog.next_position with
    | none => (prog, .missingPost)
    | some post =>
      if sendOk then
        ({ prog with pending_post_id := some post.id,
                     next_position := prog.next_position + 1 }, .sent)
      else (prog, .sendFailed)

/-- Outcome of the "task done" button. -/
inductive DoneStatus where
  | noRun
  | closed
deriving DecidableEq

/-- Models `task_done_callback` (handlers.py:660-701), the explicit close:
close the latest open run for the post, clear the active fields when they
reference this post, clear pending, and schedule the next send. -/
def task_done_callback (db : Db) (prog : Progress) (post_id : Nat) (now : Time) :
    Db × Progress × DoneStatus :=
  let now_min := floor_to_minute now
  match get_latest_open_run_for_post db prog.user_id post_id now with
  | none => (db, prog, .noRun)
  | some run =>
    let db1 := close_run_now db run.id now
    let progA :=
      if prog.active_post_id == some post_id then
        { prog with active_post_id := none, active_started_at := none,
                    active_until := none }
      else prog
    let prog1 := { progA with
      pending_post_id := none,
      next_send_at := now_min + minutes db.app.send_interval_minutes }
    (db1, prog1, .closed)

/-! ## Scheduler tick (src/bot/scheduler.py) -/

/-- Messages the tick pushes to the transport. -/
inductive Event where
  | sentTask (user_id post_id : Nat)
  | sentSummary (user_id : Nat)
deriving DecidableEq

/-- One row of the tick's progress query: the `Progress` joined with the
user's `telegram_id` and `onboarded_at` (scheduler.py:101-107). -/
structure Row where
  prog : Progress
  telegram_id : Option Nat
  onboarded_at : Option Time
deriving DecidableEq

/-- The tick's environment: the single `now` sampled at tick start and the
transport oracles (`true` = message accepted, `false` = send raised). -/
structure TickEnv where
  now : Time
  sendTaskOk : Nat → Nat → Bool
  sendSummaryOk : Nat → Bool

/-- Step a of the loop body (scheduler.py:115-120): clear the active
fields once the response window has expired (`now >= active_until`). -/
def expire_step (now : Time) (p : Progress) : Progress :=
  match p.active_until with
  | some u =>
    if u ≤ now then
      { p with active_post_id := none, active_started_at := none,
               active_until := none }
    else p
  | none => p

/-- Step b of the loop body (scheduler.py:124-138): the one-time
end-of-program prompt.  Sent only when a last post exists, the flag is
unset, the pointer has passed the last post, the latest run (by `until`)
of the last post has expired, and the user has a chat id; a transport
failure is swallowed (`except: pass`) leaving the flag unset. -/
def summary_step (db : Db) (now : Time) (sendSummaryOk : Nat → Bool)
    (telegram_id : Option Nat) (max_posts : Nat) (last_post : Option Post)
    (p : Progress) : Progress × List Event :=
  match last_post with
  | none => (p, [])
  | some lp =>
    if p.summary_prompt_sent = false ∧ max_posts < p.next_position then
      match get_last_run_for_post db p.user_id lp.id with
      | none => (p, [])
      | some last_run =>
        if last_run.until_ ≤ now then
          match telegram_id with
          | none => (p, [])
          | some tid =>
            if sendSummaryOk tid then
              ({ p with summary_prompt_sent := true }, [.sentSummary p.user_id])
            else (p, [])
        else (p, [])
    else (p, [])

/-- Minute-level normalization of `next_send_at` (scheduler.py:142-147). -/
def floor_step (p : Progress) : Progress :=
  if floor_to_minute p.next_send_at ≠ p.next_send_at then
    { p with next_send_at := floor_to_minute p.next_send_at }
  else p

/-- Step c of the loop body (scheduler.py:149-199): due-task delivery.
On a catalog gap the pointer is frozen and only `next_send_at` is bumped;
otherwise the stale active task is silently cleared, and on a successful
send the pending/pointer/next_send_at fields advance.  When the send
raises, the `except` block (scheduler.py:192-198) formats its log record
with the name `chat_id`, which is not defined anywhere in `tick`; the
resulting NameError escapes the handler and aborts the per-user loop —
the third component is `true` exactly in that case. -/
def due_step (db : Db) (now : Time) (sendTaskOk : Nat → Nat → Bool)
    (telegram_id : Option Nat) (max_posts interval_min : Nat)
    (p : Progress) : Progress × List Event × Bool :=
  let now_min := floor_to_minute now
  if p.next_position ≤ max_posts ∧ p.next_send_at ≤ now_min then
    match get_post_by_position db p.next_position with
    | none =>
      ({ p with next_send_at := now_min + minutes interval_min }, [], false)
    | some post =>
      let p1 :=
        if p.active_post_id ≠ none then
          { p with active_post_id := none, active_started_at := none,
                   active_until := none }
        else p
      match telegram_id with
      | none => (p1, [], false)
      | some tid =>
        if sendTaskOk tid post.id then
          ({ p1 with pending_post_id := some post.id,
                     next_position := p1.next_position + 1,
                     next_send_at := now_min + minutes interval_min },
           [.sentTask p1.user_id post.id], false)
        else (p1, [], true)
  else (p, [], false)

/-- One iteration of the tick's per-user loop (scheduler.py:111-199).
Rows whose user has not completed onboarding are skipped.  Returns the
committed progress, the transport events, and whether the loop aborted
(the NameError of the due-send failure path). -/
def tick_one (db : Db) (env : TickEnv) (row : Row) : Progress × List Event × Bool :=
  match row.onboarded_at with
  | none => (row.prog, [], false)
  | some _ =>
    let max_posts := count_posts db
    let last_post := if max_posts ≠ 0 then get_post_by_position db max_posts else none
    let p1 := expire_step env.now row.prog
    let resB := summary_step db env.now env.sendSummaryOk row.telegram_id
      max_posts last_post p1
    let p3 := floor_step resB.1
    let resC := due_step db env.now env.sendTaskOk row.telegram_id
      max_posts db.app.send_interval_minutes p3
    (resC.1, resB.2 ++ resC.2.1, resC.2.2)

/-- The whole tick (scheduler.py:76-209) over its progress rows: process
each row in turn; an abort leaves the remaining rows untouched. -/
def tick (db : Db) (env : TickEnv) : List Row → List Progress × List Event × Bool
  | [] => ([], [], false)
  | row :: rest =>
    let r := tick_one db env row
    if r.2.2 then
      (r.1 :: rest.map (·.prog), r.2.1, true)
    else
      let rs := tick db env rest
      (r.1 :: rs.1, r.2.1 ++ rs.2.1, rs.2.2)

/-- A sequence of ticks threading one user's progress; between ticks the
database and the tick environment may change arbitrarily. -/
def tick_seq (row : Row) : List (Db × TickEnv) → Row × List Event
  | [] => (row, [])
  | (db, env) :: rest =>
    let r := tick_one db env row
    let rs := tick_seq { row with prog := r.1 } rest
    (rs.1, r.2.1 ++ rs.2)

/-- True on the completion-prompt events. -/
def isSummaryEvent : Event → Bool
  | .sentSummary _ => true
  | _ => false

/-- Number of completion prompts among the events. -/
def summaryCount (evs : List Event) : Nat := (evs.filter isSummaryEvent).length

/-! ## The pending/active exclusion predicate -/

/-- At most one of `pending_post_id` / `active_post_id` is non-null. -/
def atMostOneCurrent (p : Progress) : Prop :=
  p.pending_post_id = none ∨ p.active_post_id = none

instance (p : Progress) : Decidable (atMostOneCurrent p) := by
  unfold atMostOneCurrent; infer_instance

/-! ## Concrete fixtures for counterexamples and witnesses -/

/-- Default-flavoured settings: 12h response window, daily send interval. -/
def exApp : AppSettings := ⟨720, 1440⟩

/-- A catalog of two posts and an otherwise empty database. -/
def exDb2 : Db := ⟨[⟨1, 1, "day one"⟩, ⟨2, 2, "day two"⟩], [], [], 1, 1, exApp⟩

/-- A fresh progress row for user 1, due since `minutes 100`. -/
def exProgFresh : Progress := ⟨1, 1, minutes 100, none, none, none, none, false⟩

/-- User 1 with task 2 pending (delivered, start button not clicked). -/
def exProgPending2 : Progress := ⟨1, 1, minutes 100, some 2, none, none, none, false⟩

/-- A fresh progress row for user 2, due since `minutes 100`. -/
def exProg2 : Progress := ⟨2, 1, minutes 100, none, none, none, none, false⟩

/-- Transport that rejects sends to chat 11 and accepts everything else. -/
def exEnvFail : TickEnv := ⟨minutes 100, fun tid _ => tid != 11, fun _ => true⟩

/-- A fully accepting transport at `minutes 100`. -/
def exEnvOk : TickEnv := ⟨minutes 100, fun _ _ => true, fun _ => true⟩

/-- Tick row for user 1 (chat 11, onboarded). -/
def exRow1 : Row := ⟨exProgFresh, some 11, some 0⟩

/-- Tick row for user 2 (chat 22, onboarded). -/
def exRow2 : Row := ⟨exProg2, some 22, some 0⟩

/-! ## Step lemmas -/

theorem expire_step_preserves (now : Time) (p : Progress)
    (h : atMostOneCurrent p) : atMostOneCurrent (expire_step now p) := by
  unfold expire_step
  rcases h with h | h <;> cases hu : p.active_until <;>
    simp [atMostOneCurrent, h] <;> split <;> simp [h]

theorem expire_step_next_position (now : Time) (p : Progress) :
    (expire_step now p).next_position = p.next_position := by
  unfold expire_step; cases p.active_until <;> simp <;> split <;> simp

theorem expire_step_next_send_at (now : Time) (p : Progress) :
    (expire_step now p).next_send_at = p.next_send_at := by
  unfold expire_step; cases p.active_until <;> simp <;> split <;> simp

theorem expire_step_pending (now : Time) (p : Progress) :
    (expire_step now p).pending_post_id = p.pending_post_id := by
  unfold expire_step; cases p.active_until <;> simp <;> split <;> simp

theorem expire_step_flag (now : Time) (p : Progress) :
    (expire_step now p).summary_prompt_sent = p.summary_prompt_sent := by
  unfold expire_step; cases p.active_until <;> simp <;> split <;> simp

theorem expire_step_user (now : Time) (p : Progress) :
    (expire_step now p).user_id = p.user_id := by
  unfold expire_step; cases p.active_until <;> simp <;> split <;> simp

/-- The progress part of `summary_step` is either untouched or has just
its flag raised. -/
theorem summary_step_fst_cases (db : Db) (now : Time) (ok : Nat → Bool)
    (tid : Option Nat) (mp : Nat) (lp : Option Post) (p : Progress) :
    (summary_step db now ok tid mp lp p).1 = p ∨
    (summary_step db now ok tid mp lp p).1 = { p with summary_prompt_sent := true } := by
  unfold summary_step
  repeat' first
    | exact Or.inl rfl
    | exact Or.inr rfl
    | split

theorem floor_step_eq (p : Progress) :
    floor_step p = { p with next_send_at := floor_to_minute p.next_send_at } := by
  unfold floor_step; split
  · rfl
  · rename_i h
    simp only [ne_eq, not_not] at h
    cases p
    simp_all

theorem due_step_preserves (db : Db) (now : Time) (okT : Nat → Nat → Bool)
    (tid : Option Nat) (mp im : Nat) (p : Progress)
    (h : atMostOneCurrent p) :
    atMostOneCurrent (due_step db now okT tid mp im p).1 := by
  unfold due_step
  repeat' first
    | exact h
    | exact Or.inr rfl
    | split
    | simp_all [atMostOneCurrent]

theorem floor_step_preserves (p : Progress) (h : atMostOneCurrent p) :
    atMostOneCurrent (floor_step p) := by
  rw [floor_step_eq]; exact h

theorem summary_step_preserves (db : Db) (now : Time) (ok : Nat → Bool)
    (tid : Option Nat) (mp : Nat) (lp : Option Post) (p : Progress)
    (h : atMostOneCurrent p) :
    atMostOneCurrent (summary_step db now ok tid mp lp p).1 := by
  rcases summary_step_fst_cases db now ok tid mp lp p with hc | hc <;> rw [hc] <;> exact h

theorem tick_one_preserves (db : Db) (env : TickEnv) (row : Row)
    (h : atMostOneCurrent row.prog) : atMostOneCurrent (tick_one db env row).1 := by
  unfold tick_one
  split
  · exact h
  · exact due_step_preserves _ _ _ _ _ _ _
      (floor_step_preserves _ (summary_step_preserves _ _ _ _ _ _ _
        (expire_step_preserves _ _ h)))

theorem send_due_task_now_preserves (db : Db) (prog : Progress)
    (onb ok : Bool) (now : Time) (h : atMostOneCurrent prog) :
    atMostOneCurrent (send_due_task_now db prog onb ok now).1 := by
  unfold send_due_task_now
  repeat' first
    | exact h
    | exact Or.inl rfl
    | exact Or.inr rfl
    | split
    | simp_all [atMostOneCurrent]

/-- `capture_user_answer` either leaves the progress row untouched or
clears both current-task references. -/
theorem capture_prog_cases (db : Db) (prog : Progress) (rp : Option Nat)
    (txt : String) (now : Time) (mx : Nat) :
    (capture_user_answer db prog rp txt now mx).2.1 = prog ∨
    ((capture_user_answer db prog rp txt now mx).2.1.pending_post_id = none ∧
     (capture_user_answer db prog rp txt now mx).2.1.active_post_id = none) := by
  unfold capture_user_answer
  repeat' first
    | exact Or.inl rfl
    | exact Or.inr ⟨rfl, rfl⟩
    | split
    | dsimp only

theorem capture_user_answer_preserves (db : Db) (prog : Progress)
    (rp : Option Nat) (txt : String) (now : Time) (mx : Nat)
    (h : atMostOneCurrent prog) :
    atMostOneCurrent (capture_user_answer db prog rp txt now mx).2.1 := by
  rcases capture_prog_cases db prog rp txt now mx with hc | hc
  · rw [hc]; exact h
  · exact Or.inl hc.1

theorem task_done_callback_preserves (db : Db) (prog : Progress)
    (pid : Nat) (now : Time) (h : atMostOneCurrent prog) :
    atMostOneCurrent (task_done_callback db prog pid now).2.1 := by
  unfold task_done_callback
  repeat' first
    | exact h
    | exact Or.inl rfl
    | split

/-- A successful `get_post` returns the post with the requested id. -/
theorem get_post_id (db : Db) (pid : Nat) (post : Post)
    (h : get_post db pid = some post) : post.id = pid := by
  unfold get_post at h
  simpa using List.find?_some h

theorem start_task_callback_preserves (db : Db) (prog : Progress)
    (pid : Nat) (now : Time) (h : atMostOneCurrent prog)
    (hp : prog.pending_post_id = none ∨ prog.pending_post_id = some pid) :
    atMostOneCurrent (start_task_callback db prog pid now).2.1 := by
  unfold start_task_callback
  split
  · exact h
  · rename_i post heq
    have hid : post.id = pid := get_post_id db pid post heq
    rcases hp with hp | hp <;> exact Or.inl (by simp [hp, hid])

theorem summary_step_skip (db : Db) (now : Time) (ok : Nat → Bool)
    (tid : Option Nat) (mp : Nat) (lp : Option Post) (p : Progress)
    (h : ¬ mp < p.next_position) :
    summary_step db now ok tid mp lp p = (p, []) := by
  unfold summary_step
  split
  · rfl
  · split
    · exact absurd (by assumption : p.summary_prompt_sent = false ∧ mp < p.next_position).2 h
    · rfl

theorem due_step_gap (db : Db) (now : Time) (okT : Nat → Nat → Bool)
    (tid : Option Nat) (mp im : Nat) (p : Progress)
    (h1 : p.next_position ≤ mp) (h2 : p.next_send_at ≤ floor_to_minute now)
    (hgap : get_post_by_position db p.next_position = none) :
    due_step db now okT tid mp im p =
      ({ p with next_send_at := floor_to_minute now + minutes im }, [], false) := by
  unfold due_step
  simp [hgap, h1, h2]

theorem summaryCount_append (a b : List Event) :
    summaryCount (a ++ b) = summaryCount a + summaryCount b := by
  unfold summaryCount; rw [List.filter_append, List.length_append]

theorem floor_step_flag (p : Progress) :
    (floor_step p).summary_prompt_sent = p.summary_prompt_sent := by
  rw [floor_step_eq]

theorem due_step_flag (db : Db) (now : Time) (okT : Nat → Nat → Bool)
    (tid : Option Nat) (mp im : Nat) (p : Progress) :
    (due_step db now okT tid mp im p).1.summary_prompt_sent = p.summary_prompt_sent := by
  unfold due_step
  repeat' first | rfl | split | dsimp only

theorem due_step_no_summary (db : Db) (now : Time) (okT : Nat → Nat → Bool)
    (tid : Option Nat) (mp im : Nat) (p : Progress) :
    summaryCount (due_step db now okT tid mp im p).2.1 = 0 := by
  unfold due_step
  repeat' first | rfl | split | dsimp only

/-- Full case analysis of the summary step: it is a no-op, or it raises
the flag and emits one prompt, in which case all of the source's guards
held. -/
theorem summary_step_spec (db : Db) (now : Time) (ok : Nat → Bool)
    (tid : Option Nat) (mp : Nat) (lp : Option Post) (p : Progress) :
    summary_step db now ok tid mp lp p = (p, []) ∨
    (summary_step db now ok tid mp lp p =
        ({ p with summary_prompt_sent := true }, [Event.sentSummary p.user_id]) ∧
      p.summary_prompt_sent = false ∧ mp < p.next_position ∧
      ∃ lpost, lp = some lpost ∧
        ∃ r, get_last_run_for_post db p.user_id lpost.id = some r ∧
          r.until_ ≤ now) := by
  rcases lp with _ | lpost
  · exact Or.inl rfl
  rcases tid with _ | t
  · unfold summary_step
    repeat' first
      | exact Or.inl rfl
      | split
  · unfold summary_step
    dsimp only
    split
    · rename_i hc
      split
      · exact Or.inl rfl
      · rename_i r heq
        split
        · rename_i h2
          split
          · exact Or.inr ⟨rfl, hc.1, hc.2, lpost, rfl, r, heq, h2⟩
          · exact Or.inl rfl
        · exact Or.inl rfl
    · exact Or.inl rfl

theorem laterByUntil_le_left (a b : TaskRun) :
    a.until_ ≤ (laterByUntil a b).until_ := by
  unfold laterByUntil; split
  · rename_i h
    rcases h with h | ⟨h1, h2⟩
    · exact le_of_lt h
    · exact le_of_eq h1
  · exact le_rfl

theorem laterByUntil_le_right (a b : TaskRun) :
    b.until_ ≤ (laterByUntil a b).until_ := by
  unfold laterByUntil; split
  · exact le_rfl
  · rename_i h
    exact Nat.le_of_not_lt (fun hl => h (Or.inl hl))

theorem latestByUntil_none (l : List TaskRun) (h : latestByUntil l = none) :
    l = [] := by
  cases l with
  | nil => rfl
  | cons a rest =>
    unfold latestByUntil at h
    cases hrest : latestByUntil rest <;> rw [hrest] at h <;> simp at h

/-- The row returned by an `ORDER BY until DESC` query bounds the `until`
of every row in the list. -/
theorem latestByUntil_le (l : List TaskRun) (m : TaskRun)
    (h : latestByUntil l = some m) : ∀ r ∈ l, r.until_ ≤ m.until_ := by
  induction l generalizing m with
  | nil => cases h
  | cons a rest ih =>
    intro r hr
    unfold latestByUntil at h
    cases hrest : latestByUntil rest with
    | none =>
      rw [hrest] at h
      have hnil := latestByUntil_none rest hrest
      subst hnil
      rcases List.mem_singleton.mp hr with hra
      cases h
      rw [hra]
    | some mm =>
      rw [hrest] at h
      cases h
      rcases List.mem_cons.mp hr with hra | hrr
      · rw [hra]; exact laterByUntil_le_left a mm
      · exact le_trans (ih mm hrest r hrr) (laterByUntil_le_right a mm)

theorem tick_one_flag_true (db : Db) (env : TickEnv) (row : Row)
    (h : row.prog.summary_prompt_sent = true) :
    summaryCount (tick_one db env row).2.1 = 0 ∧
    (tick_one db env row).1.summary_prompt_sent = true := by
  cases hon : row.onboarded_at with
  | none =>
    unfold tick_one; rw [hon]
    exact ⟨rfl, h⟩
  | some ts =>
    unfold tick_one; rw [hon]
    dsimp only
    rcases summary_step_spec db env.now env.sendSummaryOk row.telegram_id
        (count_posts db)
        (if count_posts db ≠ 0 then get_post_by_position db (count_posts db) else none)
        (expire_step env.now row.prog) with hs | ⟨hs, hflag, _⟩
    · rw [hs]
      dsimp only
      refine ⟨?_, ?_⟩
      · rw [summaryCount_append, due_step_no_summary]
        rfl
      · rw [due_step_flag, floor_step_flag, expire_step_flag]
        exact h
    · rw [expire_step_flag] at hflag
      rw [h] at hflag
      cases hflag

theorem tick_one_count_le_one (db : Db) (env : TickEnv) (row : Row) :
    summaryCount (tick_one db env row).2.1 ≤ 1 := by
  cases hon : row.onboarded_at with
  | none =>
    unfold tick_one; rw [hon]
    exact Nat.zero_le 1
  | some ts =>
    unfold tick_one; rw [hon]
    dsimp only
    rw [summaryCount_append, due_step_no_summary]
    rcases summary_step_spec db env.now env.sendSummaryOk row.telegram_id
        (count_posts db)
        (if count_posts db ≠ 0 then get_post_by_position db (count_posts db) else none)
        (expire_step env.now row.prog) with hs | ⟨hs, _⟩ <;>
      rw [hs] <;> simp [summaryCount, isSummaryEvent]

theorem tick_one_count_one_flag (db : Db) (env : TickEnv) (row : Row)
    (h : summaryCount (tick_one db env row).2.1 = 1) :
    (tick_one db env row).1.summary_prompt_sent = true := by
  by_cases hf : row.prog.summary_prompt_sent = true
  · exact (tick_one_flag_true db env row hf).2
  · cases hon : row.onboarded_at with
    | none =>
      unfold tick_one at h; rw [hon] at h
      cases h
    | some ts =>
      unfold tick_one at h ⊢; rw [hon] at h ⊢
      dsimp only at h ⊢
      rcases summary_step_spec db env.now env.sendSummaryOk row.telegram_id
          (count_posts db)
          (if count_posts db ≠ 0 then get_post_by_position db (count_posts db) else none)
          (expire_step env.now row.prog) with hs | ⟨hs, _⟩
      · rw [hs] at h
        dsimp only at h
        rw [summaryCount_append, due_step_no_summary] at h
        simp [summaryCount] at h
      · rw [hs]
        dsimp only
        rw [due_step_flag, floor_step_flag]

/-- When a tick emits the completion prompt, all guards of the source
held on entry: the flag was unset, the pointer had passed the catalog,
and every run of the last post had an expired window. -/
theorem tick_one_count_one_conditions (db : Db) (env : TickEnv) (row : Row)
    (h : summaryCount (tick_one db env row).2.1 = 1) :
    row.prog.summary_prompt_sent = false ∧
    count_posts db < row.prog.next_position ∧
    (∃ lpost, get_post_by_position db (count_posts db) = some lpost ∧
      (∃ r, get_last_run_for_post db row.prog.user_id lpost.id = some r ∧
        r.until_ ≤ env.now) ∧
      ∀ r ∈ db.runs, r.user_id = row.prog.user_id → r.post_id = lpost.id →
        r.until_ ≤ env.now) := by
  cases hon : row.onboarded_at with
  | none =>
    unfold tick_one at h; rw [hon] at h
    cases h
  | some ts =>
    unfold tick_one at h; rw [hon] at h
    dsimp only at h
    rw [summaryCount_append, due_step_no_summary] at h
    rcases summary_step_spec db env.now env.sendSummaryOk row.telegram_id
        (count_posts db)
        (if count_posts db ≠ 0 then get_post_by_position db (count_posts db) else none)
        (expire_step env.now row.prog) with hs | ⟨hs, hflag, hpos, lpost, hlp, r, hr, hru⟩
    · rw [hs] at h
      simp [summaryCount] at h
    · rw [expire_step_flag] at hflag
      rw [expire_step_next_position] at hpos
      rw [expire_step_user] at hr
      have hlp2 : get_post_by_position db (count_posts db) = some lpost := by
        by_cases hmp : count_posts db ≠ 0
        · rw [if_pos hmp] at hlp; exact hlp
        · rw [if_neg hmp] at hlp; cases hlp
      refine ⟨hflag, hpos, lpost, hlp2, ⟨r, hr, hru⟩, ?_⟩
      intro q hq hqu hqp
      have hmem : q ∈ db.runs.filter fun x =>
          x.user_id == row.prog.user_id && x.post_id == lpost.id := by
        rw [List.mem_filter]
        exact ⟨hq, by simp [hqu, hqp]⟩
      exact le_trans (latestByUntil_le _ r hr q hmem) hru

theorem tick_seq_flag_zero (ticks : List (Db × TickEnv)) (row : Row)
    (h : row.prog.summary_prompt_sent = true) :
    summaryCount (tick_seq row ticks).2 = 0 := by
  induction ticks generalizing row with
  | nil => rfl
  | cons t rest ih =>
    obtain ⟨db, env⟩ := t
    have hone := tick_one_flag_true db env row h
    unfold tick_seq
    dsimp only
    rw [summaryCount_append, hone.1,
      ih { row with prog := (tick_one db env row).1 } hone.2]

/-- Across any sequence of ticks the completion prompt is emitted at most
once for a user. -/
theorem tick_seq_le_one (ticks : List (Db × TickEnv)) (row : Row) :
    summaryCount (tick_seq row ticks).2 ≤ 1 := by
  induction ticks generalizing row with
  | nil => exact Nat.zero_le 1
  | cons t rest ih =>
    obtain ⟨db, env⟩ := t
    unfold tick_seq
    dsimp only
    rw [summaryCount_append]
    have hle := tick_one_count_le_one db env row
    rcases Nat.lt_or_ge (summaryCount (tick_one db env row).2.1) 1 with hc | hc
    · have hc0 : summaryCount (tick_one db env row).2.1 = 0 := by omega
      rw [hc0]
      simpa using ih { row with prog := (tick_one db env row).1 }
    · have hc1 : summaryCount (tick_one db env row).2.1 = 1 := by omega
      have hflag := tick_one_count_one_flag db env row hc1
      rw [hc1, tick_seq_flag_zero rest { row with prog := (tick_one db env row).1 } hflag]

theorem latestByStarted_mem (l : List TaskRun) (m : TaskRun)
    (h : latestByStarted l = some m) : m ∈ l := by
  induction l generalizing m with
  | nil => cases h
  | cons a rest ih =>
    unfold latestByStarted at h
    cases hrest : latestByStarted rest with
    | none =>
      rw [hrest] at h
      cases h
      exact List.mem_cons_self a rest
    | some mm =>
      rw [hrest] at h
      cases h
      unfold laterByStarted
      split
      · exact List.mem_cons_of_mem a (ih mm hrest)
      · exact List.mem_cons_self a rest

/-- The run returned by `get_latest_open_run` is one of the user's runs
and its window is still open at `now`. -/
theorem get_latest_open_run_mem (db : Db) (u : Nat) (now : Time) (run : TaskRun)
    (h : get_latest_open_run db u now = some run) :
    run ∈ db.runs ∧ run.user_id = u ∧ now ≤ run.until_ := by
  unfold get_latest_open_run at h
  have hm := latestByStarted_mem _ _ h
  rw [List.mem_filter] at hm
  obtain ⟨h1, h2⟩ := hm
  simp only [Bool.and_eq_true, beq_iff_eq, decide_eq_true_eq] at h2
  exact ⟨h1, h2.1, h2.2⟩

/-- Every run with the closed id has `until < now` after `close_run_now`
(for positive `now`). -/
theorem close_run_now_closes (db : Db) (run_id : Nat) (now : Time)
    (hnow : 0 < now) :
    ∀ q ∈ (close_run_now db run_id now).runs, q.id = run_id → q.until_ < now := by
  intro q hq hid
  unfold close_run_now at hq
  dsimp only at hq
  rw [List.mem_map] at hq
  obtain ⟨r0, hr0, heq⟩ := hq
  by_cases hcase : r0.id = run_id
  · rw [if_pos (by simpa using hcase)] at heq
    rw [← heq]
    exact Nat.sub_lt hnow Nat.one_pos
  · rw [if_neg (by simpa using hcase)] at heq
    rw [← heq] at hid
    exact absurd hid hcase

/-- The closed run is still present after `close_run_now`, with
`until = now - 1`. -/
theorem close_run_now_mem (db : Db) (run_id : Nat) (now : Time) (run : TaskRun)
    (hr : run ∈ db.runs) (hid : run.id = run_id) :
    ∃ q ∈ (close_run_now db run_id now).runs, q.id = run_id ∧ q.until_ = now - 1 := by
  refine ⟨{ run with until_ := now - 1 }, ?_, hid, rfl⟩
  unfold close_run_now
  dsimp only
  rw [List.mem_map]
  exact ⟨run, hr, by rw [if_pos (by simpa using hid)]⟩

/-! ## Theorems for the claims -/


/-- C1 (amended): the scheduler tick, the on-demand send-now push,
response recording and the explicit close each preserve "at most one of
`pending_post_id`/`active_post_id` is non-null"; opening a task via the
start button preserves it exactly when the pending reference is null or
equals the opened task (the source clears `pending_post_id` only on a
match, so opening a task different from the pending one leaves both
fields set — see the counterexample). -/
theorem C1_amended_at_most_one_current :
    (∀ (db : Db) (env : TickEnv) (row : Row), atMostOneCurrent row.prog →
        atMostOneCurrent (tick_one db env row).1) ∧
    (∀ (db : Db) (prog : Progress) (onb ok : Bool) (now : Time),
        atMostOneCurrent prog →
        atMostOneCurrent (send_due_task_now db prog onb ok now).1) ∧
    (∀ (db : Db) (prog : Progress) (rp : Option Nat) (txt : String)
        (now : Time) (mx : Nat), atMostOneCurrent prog →
        atMostOneCurrent (capture_user_answer db prog rp txt now mx).2.1) ∧
    (∀ (db : Db) (prog : Progress) (pid : Nat) (now : Time),
        atMostOneCurrent prog →
        atMostOneCurrent (task_done_callback db prog pid now).2.1) ∧
    (∀ (db : Db) (prog : Progress) (pid : Nat) (now : Time),
        atMostOneCurrent prog →
        (prog.pending_post_id = none ∨ prog.pending_post_id = some pid) →
        atMostOneCurrent (start_task_callback db prog pid now).2.1) :=
  ⟨tick_one_preserves, send_due_task_now_preserves,
   capture_user_answer_preserves, task_done_callback_preserves,
   start_task_callback_preserves⟩

/-- Witness for C1 (amended) at concrete inputs: each operation applied
to a fresh user keeps the exclusion invariant. -/
theorem C1_amended_witness :
    atMostOneCurrent (tick_one exDb2 exEnvOk exRow1).1 ∧
    atMostOneCurrent (send_due_task_now exDb2 exProgFresh true true (minutes 100)).1 ∧
    atMostOneCurrent (capture_user_answer exDb2 exProgFresh none "hi" 0 3).2.1 ∧
    atMostOneCurrent (task_done_callback exDb2 exProgFresh 1 0).2.1 ∧
    atMostOneCurrent (start_task_callback exDb2 exProgFresh 1 0).2.1 :=
  ⟨C1_amended_at_most_one_current.1 exDb2 exEnvOk exRow1 (by decide),
   C1_amended_at_most_one_current.2.1 exDb2 exProgFresh true true (minutes 100) (by decide),
   C1_amended_at_most_one_current.2.2.1 exDb2 exProgFresh none "hi" 0 3 (by decide),
   C1_amended_at_most_one_current.2.2.2.1 exDb2 exProgFresh 1 0 (by decide),
   C1_amended_at_most_one_current.2.2.2.2 exDb2 exProgFresh 1 0 (by decide) (Or.inl (by decide))⟩

/-- C2: across any sequence of scheduler ticks the end-of-program prompt
is sent at most once; a tick emits it only when the flag is unset, the
pointer has passed the last task and the last task's runs have all
expired, and the emitting tick raises `summary_prompt_sent`; once the
flag is set every later tick emits nothing and keeps the flag. -/
theorem C2_completion_prompt_at_most_once :
    (∀ (ticks : List (Db × TickEnv)) (row : Row),
        summaryCount (tick_seq row ticks).2 ≤ 1) ∧
    (∀ (db : Db) (env : TickEnv) (row : Row),
        row.prog.summary_prompt_sent = true →
        summaryCount (tick_one db env row).2.1 = 0 ∧
        (tick_one db env row).1.summary_prompt_sent = true) ∧
    (∀ (db : Db) (env : TickEnv) (row : Row),
        summaryCount (tick_one db env row).2.1 = 1 →
        row.prog.summary_prompt_sent = false ∧
        count_posts db < row.prog.next_position ∧
        (tick_one db env row).1.summary_prompt_sent = true ∧
        ∃ lpost, get_post_by_position db (count_posts db) = some lpost ∧
          (∃ r, get_last_run_for_post db row.prog.user_id lpost.id = some r ∧
            r.until_ ≤ env.now) ∧
          ∀ r ∈ db.runs, r.user_id = row.prog.user_id → r.post_id = lpost.id →
            r.until_ ≤ env.now) := by
  refine ⟨tick_seq_le_one, tick_one_flag_true, ?_⟩
  intro db env row h
  obtain ⟨h1, h2, h3⟩ := tick_one_count_one_conditions db env row h
  exact ⟨h1, h2, tick_one_count_one_flag db env row h, h3⟩

/-- A run of the last post (post 2) whose window expired at `minutes 10`. -/
def exRunLast : TaskRun := ⟨1, 1, 2, 0, minutes 10⟩

/-- Database where user 1 has finished the 2-post program. -/
def exDbDone : Db := ⟨[⟨1, 1, "day one"⟩, ⟨2, 2, "day two"⟩], [exRunLast], [], 2, 1, exApp⟩

/-- User 1 past the last task, prompt not yet sent, not due before
`minutes 5000`. -/
def exProgDone : Progress := ⟨1, 3, minutes 5000, none, none, none, none, false⟩

/-- Tick row for the finished user. -/
def exRowDone : Row := ⟨exProgDone, some 11, some 0⟩

/-- The finished user after the prompt was sent (flag raised). -/
def exRowFlagged : Row := ⟨⟨1, 3, minutes 5000, none, none, none, none, true⟩, some 11, some 0⟩

/-- Witness for C2 at concrete inputs: 100 consecutive ticks on a
finished user emit at most one prompt; a tick on a user whose flag is
already set emits nothing; the tick that does emit one satisfies all the
stated guards. -/
theorem C2_witness :
    summaryCount (tick_seq exRowDone
      (List.replicate 100 (exDbDone, exEnvOk))).2 ≤ 1 ∧
    (summaryCount (tick_one exDbDone exEnvOk exRowFlagged).2.1 = 0 ∧
      (tick_one exDbDone exEnvOk exRowFlagged).1.summary_prompt_sent = true) ∧
    (exRowDone.prog.summary_prompt_sent = false ∧
      count_posts exDbDone < exRowDone.prog.next_position ∧
      (tick_one exDbDone exEnvOk exRowDone).1.summary_prompt_sent = true ∧
      ∃ lpost, get_post_by_position exDbDone (count_posts exDbDone) = some lpost ∧
        (∃ r, get_last_run_for_post exDbDone exRowDone.prog.user_id lpost.id = some r ∧
          r.until_ ≤ exEnvOk.now) ∧
        ∀ r ∈ exDbDone.runs, r.user_id = exRowDone.prog.user_id →
          r.post_id = lpost.id → r.until_ ≤ exEnvOk.now) :=
  ⟨C2_completion_prompt_at_most_once.1 (List.replicate 100 (exDbDone, exEnvOk)) exRowDone,
   C2_completion_prompt_at_most_once.2.1 exDbDone exEnvOk exRowFlagged (by decide),
   C2_completion_prompt_at_most_once.2.2 exDbDone exEnvOk exRowDone (by decide)⟩

/-- C4: opening a task with no live run creates exactly one TaskRun with
`until = T0 + response_window` (read from settings at T0) and sets
`active_until` to it; re-opening the same task at any `T1` within the
window creates no new run and returns the same `until`. -/
theorem C4_open_task_idempotent (db : Db) (prog : Progress) (pid : Nat)
    (post : Post) (T0 T1 : Time)
    (hpost : get_post db pid = some post)
    (hclean : ∀ r ∈ db.runs, r.user_id = prog.user_id → r.post_id = post.id →
        r.until_ < T0)
    (h01 : T0 ≤ T1)
    (hopen : T1 ≤ T0 + minutes db.app.response_window_minutes) :
    (start_task_callback db prog pid T0).1.runs =
      db.runs ++ [⟨db.next_run_id, prog.user_id, post.id, T0,
        T0 + minutes db.app.response_window_minutes⟩] ∧
    (start_task_callback db prog pid T0).2.1.active_until =
      some (T0 + minutes db.app.response_window_minutes) ∧
    (start_task_callback (start_task_callback db prog pid T0).1
        (start_task_callback db prog pid T0).2.1 pid T1).1.runs =
      (start_task_callback db prog pid T0).1.runs ∧
    (start_task_callback (start_task_callback db prog pid T0).1
        (start_task_callback db prog pid T0).2.1 pid T1).2.1.active_until =
      some (T0 + minutes db.app.response_window_minutes) := by
  have hfilter0 : (db.runs.filter fun r =>
      r.user_id == prog.user_id && r.post_id == post.id &&
        decide (T0 ≤ r.until_)) = [] := by
    rw [List.filter_eq_nil_iff]
    intro r hr
    simp only [Bool.and_eq_true, beq_iff_eq, decide_eq_true_eq, not_and, and_imp]
    intro hu hp
    exact not_le.mpr (hclean r hr hu hp)
  have hq0 : get_latest_open_run_for_post db prog.user_id post.id T0 = none := by
    unfold get_latest_open_run_for_post
    rw [hfilter0]
    rfl
  have hfirst : start_task_callback db prog pid T0 =
      ((create_task_run db prog.user_id post.id T0
          (T0 + minutes db.app.response_window_minutes)).1,
        { prog with
            pending_post_id := if prog.pending_post_id == some post.id then none
              else prog.pending_post_id,
            active_post_id := some post.id,
            active_started_at := some T0,
            active_until := some (T0 + minutes db.app.response_window_minutes) },
        .opened) := by
    unfold start_task_callback
    rw [hpost]
    dsimp only
    rw [hq0]
  have hfilter1 : ((create_task_run db prog.user_id post.id T0
        (T0 + minutes db.app.response_window_minutes)).1.runs.filter fun r =>
      r.user_id == prog.user_id && r.post_id == post.id &&
        decide (T1 ≤ r.until_)) =
      [⟨db.next_run_id, prog.user_id, post.id, T0,
        T0 + minutes db.app.response_window_minutes⟩] := by
    show ((db.runs ++ [(⟨db.next_run_id, prog.user_id, post.id, T0,
        T0 + minutes db.app.response_window_minutes⟩ : TaskRun)]).filter _) = _
    rw [List.filter_append]
    have hnil : (db.runs.filter fun r =>
        r.user_id == prog.user_id && r.post_id == post.id &&
          decide (T1 ≤ r.until_)) = [] := by
      rw [List.filter_eq_nil_iff]
      intro r hr
      simp only [Bool.and_eq_true, beq_iff_eq, decide_eq_true_eq, not_and, and_imp]
      intro hu hp
      exact not_le.mpr (lt_of_lt_of_le (hclean r hr hu hp) h01)
    rw [hnil]
    simp [List.filter, hopen]
  have hq1 : get_latest_open_run_for_post (create_task_run db prog.user_id post.id T0
        (T0 + minutes db.app.response_window_minutes)).1 prog.user_id post.id T1 =
      some ⟨db.next_run_id, prog.user_id, post.id, T0,
        T0 + minutes db.app.response_window_minutes⟩ := by
    unfold get_latest_open_run_for_post
    rw [hfilter1]
    rfl
  have hpost1 : get_post (create_task_run db prog.user_id post.id T0
      (T0 + minutes db.app.response_window_minutes)).1 pid = some post := hpost
  refine ⟨by rw [hfirst]; rfl, by rw [hfirst], ?_, ?_⟩

  · rw [hfirst]
    dsimp only
    unfold start_task_callback
    rw [hpost1]
    dsimp only
    rw [hq1]
  · rw [hfirst]
    dsimp only
    unfold start_task_callback
    rw [hpost1]
    dsimp only
    rw [hq1]

/-- Witness for C4: fresh user, post 1, first open at `T0 = 0`, re-open
at `T1 = minutes 10` inside the 720-minute window. -/
theorem C4_witness :
    (start_task_callback exDb2 exProgFresh 1 0).1.runs =
      exDb2.runs ++ [⟨exDb2.next_run_id, exProgFresh.user_id, 1, 0,
        0 + minutes exDb2.app.response_window_minutes⟩] ∧
    (start_task_callback exDb2 exProgFresh 1 0).2.1.active_until =
      some (0 + minutes exDb2.app.response_window_minutes) ∧
    (start_task_callback (start_task_callback exDb2 exProgFresh 1 0).1
        (start_task_callback exDb2 exProgFresh 1 0).2.1 1 (minutes 10)).1.runs =
      (start_task_callback exDb2 exProgFresh 1 0).1.runs ∧
    (start_task_callback (start_task_callback exDb2 exProgFresh 1 0).1
        (start_task_callback exDb2 exProgFresh 1 0).2.1 1 (minutes 10)).2.1.active_until =
      some (0 + minutes exDb2.app.response_window_minutes) :=
  C4_open_task_idempotent exDb2 exProgFresh 1 ⟨1, 1, "day one"⟩ 0 (minutes 10)
    (by decide) (by intro r hr; cases hr) (by decide) (by decide)

/-- C1, counterexample: the claim that after any engine operation at most
one of `pending_task`/`active_task` is non-null is false.  From a state
satisfying the invariant (task 2 pending, nothing active), clicking the
start button of task 1 — a different task than the pending one — leaves
`pending_post_id = 2` while setting `active_post_id = 1`: both non-null,
referencing two different tasks. -/
theorem C1_counterexample_open_other_than_pending :
    atMostOneCurrent exProgPending2 ∧
    (start_task_callback exDb2 exProgPending2 1 (minutes 100)).2.2 = .opened ∧
    (start_task_callback exDb2 exProgPending2 1 (minutes 100)).2.1.pending_post_id = some 2 ∧
    (start_task_callback exDb2 exProgPending2 1 (minutes 100)).2.1.active_post_id = some 1 ∧
    ¬ atMostOneCurrent (start_task_callback exDb2 exProgPending2 1 (minutes 100)).2.1 := by
  decide

/-- C3, failing input for the send-now path: for an onboarded user at
position 1 who is due at `now = minutes 100`, `_send_due_task_now`
delivers task 1 (status `sent`, `pending_post_id = 1`, pointer advanced
to 2) but leaves `next_send_at` at its old value `minutes 100` instead of
`now + send_interval`; the scheduler tick's delivery of the same task
does set `next_send_at = now + send_interval`, so the two delivery paths
disagree and after the send-now push the next task is due immediately. -/
theorem C3_send_now_keeps_next_send_at :
    (send_due_task_now exDb2 exProgFresh true true (minutes 100)).2 = .sent ∧
    (send_due_task_now exDb2 exProgFresh true true (minutes 100)).1.pending_post_id = some 1 ∧
    (send_due_task_now exDb2 exProgFresh true true (minutes 100)).1.next_position = 2 ∧
    (send_due_task_now exDb2 exProgFresh true true (minutes 100)).1.next_send_at = minutes 100 ∧
    minutes 100 ≠ floor_to_minute (minutes 100) + minutes exDb2.app.send_interval_minutes ∧
    (tick_one exDb2 exEnvOk exRow1).1.next_send_at =
      floor_to_minute (minutes 100) + minutes exDb2.app.send_interval_minutes ∧
    (tick_one exDb2 exEnvOk exRow1).1.pending_post_id = some 1 ∧
    (tick_one exDb2 exEnvOk exRow1).1.next_position = 2 := by
  decide

/-- C7, counterexample: open task 1 at time 0 (window 720 minutes, so
`active_until = minutes 720`), then re-open the same task at
`minutes 10` while the run is still open.  The re-open sets
`active_started_at = minutes 10` but reuses the run's `until`, so
`active_until = minutes 720` and not
`active_started_at + response_window = minutes 730`: the claimed equation
`active_until = active_started_at + window` fails after a re-open. -/
theorem C7_counterexample_reopen_shifts_started_at :
    (start_task_callback (start_task_callback exDb2 exProgFresh 1 0).1
        (start_task_callback exDb2 exProgFresh 1 0).2.1 1 (minutes 10)).2.1.active_started_at
      = some (minutes 10) ∧
    (start_task_callback (start_task_callback exDb2 exProgFresh 1 0).1
        (start_task_callback exDb2 exProgFresh 1 0).2.1 1 (minutes 10)).2.1.active_until
      = some (minutes 720) ∧
    (start_task_callback exDb2 exProgFresh 1 0).1.app.response_window_minutes = 720 ∧
    minutes 720 ≠ minutes 10 + minutes 720 := by
  decide

/-- C7 (amended): when opening a task creates a new run,
`active_until = active_started_at + response_window` (read at open time);
when re-opening a task whose run is still open, `active_until` equals the
stored `until` of that run — unchanged even if an administrator changed
the window setting in between — while `active_started_at` moves to the
re-open time, so the claimed equation holds only for fresh opens. -/
theorem C7_amended_window_capture (db : Db) (prog : Progress) (pid : Nat)
    (post : Post) (now : Time)
    (hpost : get_post db pid = some post) :
    (get_latest_open_run_for_post db prog.user_id post.id now = none →
      (start_task_callback db prog pid now).2.1.active_started_at = some now ∧
      (start_task_callback db prog pid now).2.1.active_until =
        some (now + minutes db.app.response_window_minutes)) ∧
    (∀ (r : TaskRun) (w : Nat),
      get_latest_open_run_for_post db prog.user_id post.id now = some r →
      (start_task_callback (set_response_window_minutes db w) prog pid
          now).2.1.active_until = some r.until_ ∧
      (start_task_callback db prog pid now).2.1.active_until = some r.until_) := by
  constructor
  · intro hnone
    unfold start_task_callback
    rw [hpost]
    dsimp only
    rw [hnone]
    exact ⟨rfl, rfl⟩
  · intro r w hr
    constructor
    · unfold start_task_callback
      rw [show get_post (set_response_window_minutes db w) pid = some post from hpost]
      dsimp only
      rw [show get_latest_open_run_for_post (set_response_window_minutes db w)
            prog.user_id post.id now = some r from hr]
    · unfold start_task_callback
      rw [hpost]
      dsimp only
      rw [hr]

/-- A 12-hour run for (user 1, post 1) opened at time 0, with two
responses already recorded. -/
def exRunOpen : TaskRun := ⟨1, 1, 1, 0, minutes 720⟩

/-- Database with post 1, the open run and two of its responses. -/
def exDbRun : Db :=
  ⟨[⟨1, 1, "day one"⟩], [exRunOpen],
    [⟨1, 1, 1, 1, 1, "a"⟩, ⟨2, 1, 1, 1, 2, "b"⟩], 2, 3, exApp⟩

/-- Witness for C7 (amended): a fresh open at `minutes 100` captures the
window; a re-open at `minutes 5` after the admin shrinks the window to 60
minutes still returns the stored `until = minutes 720`. -/
theorem C7_amended_witness :
    ((start_task_callback exDb2 exProgFresh 1 (minutes 100)).2.1.active_started_at =
        some (minutes 100) ∧
      (start_task_callback exDb2 exProgFresh 1 (minutes 100)).2.1.active_until =
        some (minutes 100 + minutes exDb2.app.response_window_minutes)) ∧
    ((start_task_callback (set_response_window_minutes exDbRun 60) exProgFresh 1
          (minutes 5)).2.1.active_until = some exRunOpen.until_ ∧
      (start_task_callback exDbRun exProgFresh 1 (minutes 5)).2.1.active_until =
        some exRunOpen.until_) :=
  ⟨(C7_amended_window_capture exDb2 exProgFresh 1 ⟨1, 1, "day one"⟩ (minutes 100)
      (by decide)).1 (by decide),
   (C7_amended_window_capture exDbRun exProgFresh 1 ⟨1, 1, "day one"⟩ (minutes 5)
      (by decide)).2 exRunOpen 60 (by decide)⟩

/-- C8, failing input: users 1 and 2 are both onboarded and due at
`minutes 100`; the transport rejects the send to user 1's chat.  The tick
aborts (the `except` block of scheduler.py:192-198 evaluates the
undefined name `chat_id`, raising NameError), leaves both progress rows
unchanged and emits nothing — user 2 is never processed, although a tick
reaching user 2 would have delivered task 1 to them. -/
theorem C8_send_failure_aborts_tick :
    (tick exDb2 exEnvFail [exRow1, exRow2]).2.2 = true ∧
    (tick exDb2 exEnvFail [exRow1, exRow2]).1 = [exProgFresh, exProg2] ∧
    (tick exDb2 exEnvFail [exRow1, exRow2]).2.1 = [] ∧
    (tick exDb2 exEnvFail [exRow2]).2.1 = [Event.sentTask 2 1] ∧
    (tick exDb2 exEnvFail [exRow2]).2.2 = false := by
  decide

/-- C9: when the user's pointer references a catalog position with no
post (a gap) and the user is due, the tick leaves `next_position`
unchanged, sets `next_send_at = floor_to_minute now + send_interval` so
the same position is retried later, delivers nothing and does not abort. -/
theorem C9_catalog_gap_freezes_pointer (db : Db) (env : TickEnv) (row : Row)
    (ts : Time) (hon : row.onboarded_at = some ts)
    (hpos : row.prog.next_position ≤ count_posts db)
    (htime : floor_to_minute row.prog.next_send_at ≤ floor_to_minute env.now)
    (hgap : get_post_by_position db row.prog.next_position = none) :
    (tick_one db env row).1.next_position = row.prog.next_position ∧
    (tick_one db env row).1.next_send_at =
      floor_to_minute env.now + minutes db.app.send_interval_minutes ∧
    (tick_one db env row).2.1 = [] ∧
    (tick_one db env row).2.2 = false := by
  have h1pos : (expire_step env.now row.prog).next_position = row.prog.next_position :=
    expire_step_next_position _ _
  have h1send : (expire_step env.now row.prog).next_send_at = row.prog.next_send_at :=
    expire_step_next_send_at _ _
  have hskip : summary_step db env.now env.sendSummaryOk row.telegram_id
      (count_posts db)
      (if count_posts db ≠ 0 then get_post_by_position db (count_posts db) else none)
      (expire_step env.now row.prog) = (expire_step env.now row.prog, []) :=
    summary_step_skip _ _ _ _ _ _ _ (by rw [h1pos]; omega)
  have hdue : due_step db env.now env.sendTaskOk row.telegram_id (count_posts db)
      db.app.send_interval_minutes (floor_step (expire_step env.now row.prog)) =
      ({ floor_step (expire_step env.now row.prog) with
          next_send_at := floor_to_minute env.now + minutes db.app.send_interval_minutes },
        [], false) := by
    refine due_step_gap _ _ _ _ _ _ _ ?_ ?_ ?_
    · rw [floor_step_eq]; simpa [h1pos] using hpos
    · rw [floor_step_eq]; simpa [h1send] using htime
    · rw [floor_step_eq]; simpa [h1pos] using hgap
  have hres : tick_one db env row =
      ({ floor_step (expire_step env.now row.prog) with
          next_send_at := floor_to_minute env.now + minutes db.app.send_interval_minutes },
        [], false) := by
    unfold tick_one
    rw [hon]
    dsimp only
    rw [hskip]
    dsimp only
    rw [hdue]
    rfl
  rw [hres]
  refine ⟨?_, rfl, rfl, rfl⟩
  show (floor_step (expire_step env.now row.prog)).next_position = _
  rw [floor_step_eq]
  simpa using h1pos

/-- A database whose catalog has posts at positions 1 and 3 but a gap at
position 2. -/
def exDbGap : Db := ⟨[⟨1, 1, "day one"⟩, ⟨3, 3, "day three"⟩], [], [], 1, 1, exApp⟩

/-- User 1 pointing at the gap position 2 and long due. -/
def exProgGap : Progress := ⟨1, 2, minutes 50, none, none, none, none, false⟩

/-- Witness for C9: a due user pointing at the missing position 2 keeps
the pointer, gets `next_send_at` bumped by the interval and receives
nothing. -/
theorem C9_witness :
    (tick_one exDbGap exEnvOk ⟨exProgGap, some 11, some 0⟩).1.next_position = 2 ∧
    (tick_one exDbGap exEnvOk ⟨exProgGap, some 11, some 0⟩).1.next_send_at =
      floor_to_minute (minutes 100) + minutes 1440 ∧
    (tick_one exDbGap exEnvOk ⟨exProgGap, some 11, some 0⟩).2.1 = [] ∧
    (tick_one exDbGap exEnvOk ⟨exProgGap, some 11, some 0⟩).2.2 = false :=
  C9_catalog_gap_freezes_pointer exDbGap exEnvOk ⟨exProgGap, some 11, some 0⟩ 0
    (by decide) (by decide) (by decide) (by decide)

/-- Like `exDbRun` but with the run already at three responses. -/
def exDbRun3 : Db :=
  ⟨[⟨1, 1, "day one"⟩], [exRunOpen],
    [⟨1, 1, 1, 1, 1, "a"⟩, ⟨2, 1, 1, 1, 2, "b"⟩, ⟨3, 1, 1, 1, 3, "c"⟩], 2, 4, exApp⟩

/-- Like `exDbRun` but with a single response on the run. -/
def exDbRun1 : Db :=
  ⟨[⟨1, 1, "day one"⟩], [exRunOpen], [⟨1, 1, 1, 1, 1, "a"⟩], 2, 2, exApp⟩

/-- C6: a further response on a run already at the limit records
nothing — the response table is unchanged — defensively closes the run
(its `until` drops strictly below `now`) and returns the LimitReached
outcome; the progress row is untouched. -/
theorem C6_limit_reached_records_nothing (db : Db) (prog : Progress)
    (run : TaskRun) (txt : String) (now : Time) (mx : Nat)
    (hroute : get_latest_open_run db prog.user_id now = some run)
    (hcnt : mx ≤ count_responses_for_run db run.id)
    (hnow : 0 < now) :
    (capture_user_answer db prog none txt now mx).2.2 = .limitReached ∧
    (capture_user_answer db prog none txt now mx).1.responses = db.responses ∧
    (capture_user_answer db prog none txt now mx).2.1 = prog ∧
    (∀ q ∈ (capture_user_answer db prog none txt now mx).1.runs,
        q.id = run.id → q.until_ < now) ∧
    (∃ q ∈ (capture_user_answer db prog none txt now mx).1.runs,
        q.id = run.id ∧ q.until_ = now - 1) := by
  have heq : capture_user_answer db prog none txt now mx =
      (close_run_now db run.id now, prog, .limitReached) := by
    unfold capture_user_answer
    dsimp only
    rw [hroute]
    dsimp only
    rw [if_pos hcnt]
  rw [heq]
  refine ⟨rfl, rfl, rfl, close_run_now_closes db run.id now hnow, ?_⟩
  exact close_run_now_mem db run.id now run
    (get_latest_open_run_mem db prog.user_id now run hroute).1 rfl

/-- Witness for C6: user 1's open run already has 3 responses; a 4th
attempt with max 3 yields LimitReached, leaves the table unchanged and
closes the run. -/
theorem C6_witness :
    (capture_user_answer exDbRun3 exProgFresh none "d" (minutes 100) 3).2.2 =
      .limitReached ∧
    (capture_user_answer exDbRun3 exProgFresh none "d" (minutes 100) 3).1.responses =
      exDbRun3.responses ∧
    (capture_user_answer exDbRun3 exProgFresh none "d" (minutes 100) 3).2.1 =
      exProgFresh ∧
    (∀ q ∈ (capture_user_answer exDbRun3 exProgFresh none "d" (minutes 100) 3).1.runs,
        q.id = exRunOpen.id → q.until_ < minutes 100) ∧
    (∃ q ∈ (capture_user_answer exDbRun3 exProgFresh none "d" (minutes 100) 3).1.runs,
        q.id = exRunOpen.id ∧ q.until_ = minutes 100 - 1) :=
  C6_limit_reached_records_nothing exDbRun3 exProgFresh exRunOpen "d" (minutes 100) 3
    (by decide) (by decide) (by decide)

/-- C5: recording the response that reaches the limit appends exactly
that response (with the next sequence number), closes the run in the same
operation (`until` strictly before `now`), clears the user's current-task
fields, schedules the next send at `floor_to_minute now + send_interval`
and reports 0 remaining responses. -/
theorem C5_final_response_closes_run (db : Db) (prog : Progress)
    (run : TaskRun) (post : Post) (txt : String) (now : Time) (mx : Nat)
    (hroute : get_latest_open_run db prog.user_id now = some run)
    (hpost : get_post db run.post_id = some post)
    (hcnt : count_responses_for_run db run.id + 1 = mx)
    (hnow : 0 < now) :
    (capture_user_answer db prog none txt now mx).2.2 = .recordedClosed 0 ∧
    (capture_user_answer db prog none txt now mx).1.responses =
      db.responses ++ [⟨db.next_response_id, run.id, prog.user_id, post.id,
        max_seq_for_run db run.id + 1, txt⟩] ∧
    (∀ q ∈ (capture_user_answer db prog none txt now mx).1.runs,
        q.id = run.id → q.until_ < now) ∧
    (∃ q ∈ (capture_user_answer db prog none txt now mx).1.runs,
        q.id = run.id ∧ q.until_ = now - 1) ∧
    (capture_user_answer db prog none txt now mx).2.1.active_post_id = none ∧
    (capture_user_answer db prog none txt now mx).2.1.active_started_at = none ∧
    (capture_user_answer db prog none txt now mx).2.1.active_until = none ∧
    (capture_user_answer db prog none txt now mx).2.1.pending_post_id = none ∧
    (capture_user_answer db prog none txt now mx).2.1.next_send_at =
      floor_to_minute now + minutes db.app.send_interval_minutes := by
  have hlt : ¬ mx ≤ count_responses_for_run db run.id := by omega
  have hle : mx ≤ count_responses_for_run db run.id + 1 := by omega
  have hz : mx - (count_responses_for_run db run.id + 1) = 0 := by omega
  have heq : capture_user_answer db prog none txt now mx =
      (close_run_now (add_response db run.id prog.user_id post.id txt).1 run.id now,
        { prog with
            active_post_id := none,
            active_started_at := none,
            active_until := none,
            pending_post_id := none,
            next_send_at := floor_to_minute now + minutes db.app.send_interval_minutes },
        .recordedClosed (mx - (count_responses_for_run db run.id + 1))) := by
    unfold capture_user_answer
    dsimp only
    rw [hroute]
    dsimp only
    rw [if_neg hlt, hpost]
    dsimp only
    rw [if_pos hle]
  rw [heq, hz]
  refine ⟨rfl, rfl, ?_, ?_, rfl, rfl, rfl, rfl, rfl⟩
  · exact close_run_now_closes _ run.id now hnow
  · exact close_run_now_mem _ run.id now run
      (get_latest_open_run_mem db prog.user_id now run hroute).1 rfl

/-- Witness for C5: user 1's open run has 2 responses and max is 3; the
third response closes the run and clears the progress fields. -/
theorem C5_witness :
    (capture_user_answer exDbRun exProgFresh none "c" (minutes 100) 3).2.2 =
      .recordedClosed 0 ∧
    (capture_user_answer exDbRun exProgFresh none "c" (minutes 100) 3).1.responses =
      exDbRun.responses ++ [⟨exDbRun.next_response_id, exRunOpen.id, 1, 1,
        max_seq_for_run exDbRun exRunOpen.id + 1, "c"⟩] ∧
    (∀ q ∈ (capture_user_answer exDbRun exProgFresh none "c" (minutes 100) 3).1.runs,
        q.id = exRunOpen.id → q.until_ < minutes 100) ∧
    (∃ q ∈ (capture_user_answer exDbRun exProgFresh none "c" (minutes 100) 3).1.runs,
        q.id = exRunOpen.id ∧ q.until_ = minutes 100 - 1) ∧
    (capture_user_answer exDbRun exProgFresh none "c" (minutes 100) 3).2.1.active_post_id = none ∧
    (capture_user_answer exDbRun exProgFresh none "c" (minutes 100) 3).2.1.active_started_at = none ∧
    (capture_user_answer exDbRun exProgFresh none "c" (minutes 100) 3).2.1.active_until = none ∧
    (capture_user_answer exDbRun exProgFresh none "c" (minutes 100) 3).2.1.pending_post_id = none ∧
    (capture_user_answer exDbRun exProgFresh none "c" (minutes 100) 3).2.1.next_send_at =
      floor_to_minute (minutes 100) + minutes exDbRun.app.send_interval_minutes :=
  C5_final_response_closes_run exDbRun exProgFresh exRunOpen ⟨1, 1, "day one"⟩ "c"
    (minutes 100) 3 (by decide) (by decide) (by decide) (by decide)

/-- C10: a response that keeps the run below the limit only appends one
response row, whose `seq` is the run's previous maximum plus one; the
posts, runs (hence the run's `until`), settings and the whole progress
row are unchanged. -/
theorem C10_subthreshold_response_frame (db : Db) (prog : Progress)
    (run : TaskRun) (post : Post) (txt : String) (now : Time) (mx : Nat)
    (hroute : get_latest_open_run db prog.user_id now = some run)
    (hpost : get_post db run.post_id = some post)
    (hcnt : count_responses_for_run db run.id + 1 < mx) :
    (capture_user_answer db prog none txt now mx).2.2 =
      .recorded (mx - (count_responses_for_run db run.id + 1)) ∧
    (capture_user_answer db prog none txt now mx).1.posts = db.posts ∧
    (capture_user_answer db prog none txt now mx).1.runs = db.runs ∧
    (capture_user_answer db prog none txt now mx).1.app = db.app ∧
    (capture_user_answer db prog none txt now mx).1.responses =
      db.responses ++ [⟨db.next_response_id, run.id, prog.user_id, post.id,
        max_seq_for_run db run.id + 1, txt⟩] ∧
    (capture_user_answer db prog none txt now mx).2.1 = prog := by
  have hlt : ¬ mx ≤ count_responses_for_run db run.id := by omega
  have hlt1 : ¬ mx ≤ count_responses_for_run db run.id + 1 := by omega
  have heq : capture_user_answer db prog none txt now mx =
      ((add_response db run.id prog.user_id post.id txt).1, prog,
        .recorded (mx - (count_responses_for_run db run.id + 1))) := by
    unfold capture_user_answer
    dsimp only
    rw [hroute]
    dsimp only
    rw [if_neg hlt, hpost]
    dsimp only
    rw [if_neg hlt1]
  rw [heq]
  exact ⟨rfl, rfl, rfl, rfl, rfl, rfl⟩

/-- Witness for C10: with one response recorded and max 3, a second
response only appends the row with seq 2 and changes nothing else. -/
theorem C10_witness :
    (capture_user_answer exDbRun1 exProgFresh none "b" (minutes 100) 3).2.2 =
      .recorded (3 - (count_responses_for_run exDbRun1 exRunOpen.id + 1)) ∧
    (capture_user_answer exDbRun1 exProgFresh none "b" (minutes 100) 3).1.posts =
      exDbRun1.posts ∧
    (capture_user_answer exDbRun1 exProgFresh none "b" (minutes 100) 3).1.runs =
      exDbRun1.runs ∧
    (capture_user_answer exDbRun1 exProgFresh none "b" (minutes 100) 3).1.app =
      exDbRun1.app ∧
    (capture_user_answer exDbRun1 exProgFresh none "b" (minutes 100) 3).1.responses =
      exDbRun1.responses ++ [⟨exDbRun1.next_response_id, exRunOpen.id, 1, 1,
        max_seq_for_run exDbRun1 exRunOpen.id + 1, "b"⟩] ∧
    (capture_user_answer exDbRun1 exProgFresh none "b" (minutes 100) 3).2.1 =
      exProgFresh :=
  C10_subthreshold_response_frame exDbRun1 exProgFresh exRunOpen ⟨1, 1, "day one"⟩
    "b" (minutes 100) 3 (by decide) (by decide) (by decide)

end Marafursov
